import Mathlib

/-!
Shallow embedding of `src/api_service.py` (a FastAPI scraping service).

The program drives two opaque external capabilities: a headless browser
(navigation, scrolling, HTTP response observation) and a semantic DOM-query
engine (agentql `query_data`).  Both are modelled by an `Env` record of
oracles keyed by URL; each oracle returns `Except String _` because every
`await`ed browser/query call in the Python source can raise.  All Python
functions are translated one-to-one; `try/except` blocks become `match`es
that convert `Except.error` into the value the handler returns, and code
paths *outside* a `try` propagate `Except.error` unchanged.
-/

/-- `ProductBase` (api_service.py lines 12-15): identity triple. -/
structure ProductBase where
  name : String
  link : String
  img : String
deriving DecidableEq

/-- The five optional attribute fields produced by `PRODUCT_DETAIL_QUERY`
(api_service.py lines 33-41); a field the query engine omits is `none`,
matching the pydantic `Optional[str] = None` defaults. -/
structure DetailResponse where
  Battery : Option String := none
  Max_Puff : Option String := none
  Display : Option String := none
  Nicotine : Option String := none
  E_liquid_Capacity : Option String := none
deriving DecidableEq

/-- `ProductDetails` (api_service.py lines 17-22): `ProductBase` extended
with the optional attribute fields. -/
structure ProductDetails extends ProductBase where
  Battery : Option String := none
  Max_Puff : Option String := none
  Display : Option String := none
  Nicotine : Option String := none
  E_liquid_Capacity : Option String := none
deriving DecidableEq

/-- `ProductDetails(**product_details.dict(), **detail_response)`
(api_service.py lines 64-67): merge a base identity with the detail fields. -/
def mkProductDetails (base : ProductBase) (d : DetailResponse) : ProductDetails :=
  { name := base.name, link := base.link, img := base.img,
    Battery := d.Battery, Max_Puff := d.Max_Puff, Display := d.Display,
    Nicotine := d.Nicotine, E_liquid_Capacity := d.E_liquid_Capacity }

/-- `SearchRequest` (api_service.py lines 24-26). -/
structure SearchRequest where
  search_keyword : String
  existing_product_names : List String := []

/-- One HTTP response observed by the browser: URL, status code, headers
(as in playwright's `response.url`, `response.status`, `response.headers`). -/
structure HttpResponse where
  url : String
  status : Nat
  headers : List (String × String)
deriving DecidableEq

/-- `headers.get(key, default-absent)`: first header with the given key. -/
def header_get (headers : List (String × String)) (key : String) : Option String :=
  (headers.find? (fun h => h.1 == key)).map (fun h => h.2)

/-- The external world: headless browser plus semantic query engine.  Every
field is keyed by the URL the page was navigated to, since each Python
function opens a fresh page, navigates and then queries.
* `launch` — `playwright.chromium.launch(...)` (may fail).
* `goto u` — page creation plus `page.goto(u)` (may fail).
* `wheel u d` — `page.mouse.wheel(0, d)` on the page at `u` (may fail).
* `listingQuery u` — `page.query_data(PRODUCT_LIST_QUERY)` on the page at
  `u`, already including `response.get("products", [])` and pydantic
  validation of each entry: success yields the list of product triples.
* `detailQuery u` — `page.query_data(PRODUCT_DETAIL_QUERY)` at `u`,
  including validation of the returned fields.
* `infoQuery u` — `page.query_data(PRODUCT_INFO_QUERY)` at `u`, including
  `ProductBase` validation of the three identity fields.
* `responses u` — the HTTP responses the browser emits (in order) while
  navigating to `u` and waiting for the load state. -/
structure Env where
  launch : Except String Unit
  goto : String → Except String Unit
  wheel : String → Nat → Except String Unit
  listingQuery : String → Except String (List ProductBase)
  detailQuery : String → Except String DetailResponse
  infoQuery : String → Except String ProductBase
  responses : String → List HttpResponse

/-- The fixed scroll distance of detail extraction:
`await page.mouse.wheel(0, 3000)` (api_service.py line 31). -/
def detailScrollDistance : Nat := 3000

/-- The fixed scroll distance of listing extraction:
`await page.mouse.wheel(0, 4000)` (api_service.py line 76). -/
def listingScrollDistance : Nat := 4000

/-- The name used in the error log of `fetch_product_details`
(api_service.py line 69): `product.name if product else "Unknown"`. -/
def logged_product_name (product : Option ProductBase) : String :=
  match product with
  | some p => p.name
  | none => "Unknown"

/-- Result of `fetch_product_details`: the returned value (`ProductDetails`
or `None`) together with the log lines this call emitted. -/
structure FetchResult where
  result : Option ProductDetails
  log : List String
deriving DecidableEq

/-- The body of the `try:` block of `fetch_product_details`
(api_service.py lines 51-67): detail query; then either the caller-supplied
base product or a second identity query; then the merged record. -/
def detail_try_body (env : Env) (url : String) (product : Option ProductBase) :
    Except String ProductDetails :=
  match env.detailQuery url with
  | Except.error e => Except.error e
  | Except.ok detail_response =>
    match product with
    | some p => Except.ok (mkProductDetails p detail_response)
    | none =>
      match env.infoQuery url with
      | Except.error e => Except.error e
      | Except.ok product_info => Except.ok (mkProductDetails product_info detail_response)

/-- `fetch_product_details` (api_service.py lines 28-71).  Page creation,
`page.goto` and `page.mouse.wheel` (lines 29-31) are OUTSIDE the `try:`
block, so their failures propagate as `Except.error`.  A failure inside the
`try:` block is logged with the product name (or "Unknown") and converted
into a `None` result (lines 68-71). -/
def fetch_product_details (env : Env) (url : String) (product : Option ProductBase) :
    Except String FetchResult :=
  match env.goto url with
  | Except.error e => Except.error e
  | Except.ok () =>
    match env.wheel url detailScrollDistance with
    | Except.error e => Except.error e
    | Except.ok () =>
      match detail_try_body env url product with
      | Except.ok d => Except.ok { result := some d, log := [] }
      | Except.error e =>
        Except.ok
          { result := none,
            log := ["Error fetching details for product " ++ logged_product_name product
                      ++ ": " ++ e] }

/-- `get_product_names` (api_service.py lines 73-94).  Page creation, `goto`
and `wheel` (lines 74-76) are outside the `try:`, so their failures
propagate.  A failed listing query is logged and yields the sentinel `None`
(lines 92-94); success yields the first five validated products
(`products[:5]`, line 91). -/
def get_product_names (env : Env) (url : String) :
    Except String (Option (List ProductBase)) :=
  match env.goto url with
  | Except.error e => Except.error e
  | Except.ok () =>
    match env.wheel url listingScrollDistance with
    | Except.error e => Except.error e
    | Except.ok () =>
      match env.listingQuery url with
      | Except.ok products => Except.ok (some (products.take 5))
      | Except.error _ => Except.ok none

/-- The inner `fetch_product` coroutine of `get_names_and_fetch`
(api_service.py lines 105-110): any exception from `fetch_product_details`
is caught, logged, and turned into `None`. -/
def fetch_product (env : Env) (product : ProductBase) : Option ProductDetails :=
  match fetch_product_details env product.link (some product) with
  | Except.ok r => r.result
  | Except.error _ => none

/-- `get_names_and_fetch` (api_service.py lines 96-116).  When
`get_product_names` returns the sentinel `None`, line 103 iterates over it
(`[p for p in trunc_products ...]`), which in Python raises
`TypeError: NoneType object is not iterable`; that uncaught exception is
modelled as `Except.error`.  Otherwise the non-duplicate products are fetched
concurrently (`asyncio.gather` preserves task order, so the fan-out is a
`map`) and `None` entries are filtered out (line 116). -/
def get_names_and_fetch (env : Env) (url : String)
    (existing_product_names : List String) : Except String (List ProductDetails) :=
  match env.launch with
  | Except.error e => Except.error e
  | Except.ok () =>
    match get_product_names env url with
    | Except.error e => Except.error e
    | Except.ok none => Except.error "TypeError: NoneType object is not iterable"
    | Except.ok (some trunc_products) =>
      let new_products :=
        trunc_products.filter (fun p => decide (p.name ∉ existing_product_names))
      let fetched_products := new_products.map (fetch_product env)
      Except.ok (fetched_products.filterMap id)

/-- UTF-8 byte sequence of a Unicode code point (for percent-encoding). -/
def utf8_bytes (n : Nat) : List Nat :=
  if n < 0x80 then [n]
  else if n < 0x800 then
    [0xC0 ||| (n >>> 6), 0x80 ||| (n &&& 0x3F)]
  else if n < 0x10000 then
    [0xE0 ||| (n >>> 12), 0x80 ||| ((n >>> 6) &&& 0x3F), 0x80 ||| (n &&& 0x3F)]
  else
    [0xF0 ||| (n >>> 18), 0x80 ||| ((n >>> 12) &&& 0x3F),
     0x80 ||| ((n >>> 6) &&& 0x3F), 0x80 ||| (n &&& 0x3F)]

/-- Upper-case hexadecimal digit. -/
def hex_digit (n : Nat) : Char :=
  if n < 10 then Char.ofNat (48 + n) else Char.ofNat (55 + n)

/-- Two-digit upper-case hexadecimal rendering of a byte. -/
def to_hex_byte (n : Nat) : String :=
  String.singleton (hex_digit (n / 16)) ++ String.singleton (hex_digit (n % 16))

/-- Characters `urllib.parse.quote` leaves unescaped with its default
`safe='/'`: ASCII letters, digits, `_.-~` and `/`. -/
def quote_safe (c : Char) : Bool :=
  c.isAlpha || c.isDigit || c = '_' || c = '.' || c = '-' || c = '~' || c = '/'

/-- `urllib.parse.quote` (used at api_service.py line 119): percent-encode
the UTF-8 bytes of every non-safe character. -/
def urllib_parse_quote (s : String) : String :=
  String.join (s.toList.map (fun c =>
    if quote_safe c then String.singleton c
    else String.join ((utf8_bytes c.toNat).map (fun b => "%" ++ to_hex_byte b))))

/-- The search URL template of `search_and_scrape` (api_service.py line 119). -/
def search_url (search_keyword : String) : String :=
  "https://demandvape.com/index.php?route=product/search&search="
    ++ urllib_parse_quote search_keyword ++ "&category_id=1096"

/-- The `handle_response` callback of `search_and_scrape` (api_service.py
lines 129-133), acting on the `(redirected, final_url)` closure state: a
response for exactly the search URL with a 3xx status sets `redirected` and
sets `final_url` to the `location` header, defaulting to the search URL when
that header is absent.  `page.on("response", ...)` fires it on every
response, so the state is the left fold over the observed responses. -/
def handle_response (search_url : String) (st : Bool × String)
    (response : HttpResponse) : Bool × String :=
  if response.url = search_url ∧ 300 ≤ response.status ∧ response.status < 400 then
    (true, (header_get response.headers "location").getD search_url)
  else st

/-- `search_and_scrape` (api_service.py lines 118-147): build the search URL,
navigate to it while observing responses, then branch on the redirect flag —
no redirect runs the listing fan-out on the search URL, a redirect fetches a
single product's details from `final_url` and wraps the result in a list of
at most one element (`[details] if details else []`, line 144). -/
def search_and_scrape (env : Env) (search_keyword : String)
    (existing_product_names : List String) : Except String (List ProductDetails) :=
  let sUrl := search_url search_keyword
  match env.launch with
  | Except.error e => Except.error e
  | Except.ok () =>
    match env.goto sUrl with
    | Except.error e => Except.error e
    | Except.ok () =>
      let st := (env.responses sUrl).foldl (handle_response sUrl) (false, sUrl)
      if st.1 = false then
        get_names_and_fetch env sUrl existing_product_names
      else
        match fetch_product_details env st.2 none with
        | Except.error e => Except.error e
        | Except.ok r =>
          match r.result with
          | some details => Except.ok [details]
          | none => Except.ok []

/-- Outcome of an HTTP endpoint: a JSON product list, or
`HTTPException(status_code=500, detail=str(e))`. -/
inductive EndpointResult where
  | ok (products : List ProductDetails)
  | serverError (code : Nat) (detail : String)
deriving DecidableEq

/-- `POST /scrape` (api_service.py lines 149-155): any exception becomes an
HTTP 500 with the exception text. -/
def scrape_endpoint (env : Env) (url : String)
    (existing_product_names : List String) : EndpointResult :=
  match get_names_and_fetch env url existing_product_names with
  | Except.ok result => EndpointResult.ok result
  | Except.error e => EndpointResult.serverError 500 e

/-- `POST /search-and-scrape` (api_service.py lines 157-163). -/
def search_and_scrape_endpoint (env : Env) (request : SearchRequest) : EndpointResult :=
  match search_and_scrape env request.search_keyword request.existing_product_names with
  | Except.ok result => EndpointResult.ok result
  | Except.error e => EndpointResult.serverError 500 e

/-! ### Concrete fixtures for witnesses and counterexamples -/

/-- A sample listing product. -/
def pA : ProductBase := { name := "Alpha", link := "https://shop/a", img := "a.png" }

/-- A sample listing product whose name the caller already knows. -/
def pB : ProductBase := { name := "Beta", link := "https://shop/b", img := "b.png" }

/-- A sample listing product. -/
def pC : ProductBase := { name := "Gamma", link := "https://shop/c", img := "c.png" }

/-- A sample product on a redirect-target detail page, whose name is in the
caller-supplied known-names list. -/
def pKnown : ProductBase := { name := "Known", link := "https://shop/target", img := "k.png" }

/-- Sample attribute fields returned by a successful detail query. -/
def dFields : DetailResponse :=
  { Battery := some "650mAh", Max_Puff := some "5000", Nicotine := some "5 pct" }

/-- Details of `pKnown` as extracted from the redirect target page. -/
def knownDetails : ProductDetails := mkProductDetails pKnown dFields

/-- Environment for the plain listing flow: the listing page
`https://shop/list` shows `[pA, pB, pC]`; the detail queries on the pages of
`pA` and `pC` succeed, the one on the page of `pB` fails; no redirects. -/
def envW : Env :=
  { launch := Except.ok ()
    goto := fun _ => Except.ok ()
    wheel := fun _ _ => Except.ok ()
    listingQuery := fun u =>
      if u = "https://shop/list" then Except.ok [pA, pB, pC] else Except.error "no listing"
    detailQuery := fun u =>
      if u = "https://shop/a" ∨ u = "https://shop/c" then Except.ok dFields
      else Except.error "query failed"
    infoQuery := fun _ => Except.error "no info"
    responses := fun _ => [] }

/-- Environment where every listing query raises inside `query_data`. -/
def envC1 : Env :=
  { launch := Except.ok ()
    goto := fun _ => Except.ok ()
    wheel := fun _ _ => Except.ok ()
    listingQuery := fun _ => Except.error "agentql boom"
    detailQuery := fun _ => Except.error "query failed"
    infoQuery := fun _ => Except.error "no info"
    responses := fun _ => [] }

/-- Environment where navigation (`page.goto`) itself fails on every page. -/
def envNav : Env :=
  { launch := Except.ok ()
    goto := fun _ => Except.error "navigation failed"
    wheel := fun _ _ => Except.ok ()
    listingQuery := fun _ => Except.error "query failed"
    detailQuery := fun _ => Except.error "query failed"
    infoQuery := fun _ => Except.error "no info"
    responses := fun _ => [] }

/-- Environment where the search for "disposable" is answered with a 302
redirect to `https://shop/target`, a detail page holding `pKnown`. -/
def envR : Env :=
  { launch := Except.ok ()
    goto := fun _ => Except.ok ()
    wheel := fun _ _ => Except.ok ()
    listingQuery := fun _ => Except.error "no listing"
    detailQuery := fun u =>
      if u = "https://shop/target" then Except.ok dFields else Except.error "query failed"
    infoQuery := fun u =>
      if u = "https://shop/target" then Except.ok pKnown else Except.error "no info"
    responses := fun u =>
      if u = search_url "disposable" then
        [{ url := search_url "disposable", status := 302,
           headers := [("location", "https://shop/target")] }]
      else [] }

/-- Environment where the search for "juice" is answered with a 307 response
carrying no `location` header, and every detail query fails. -/
def envNoLoc : Env :=
  { launch := Except.ok ()
    goto := fun _ => Except.ok ()
    wheel := fun _ _ => Except.ok ()
    listingQuery := fun _ => Except.error "no listing"
    detailQuery := fun _ => Except.error "query failed"
    infoQuery := fun _ => Except.error "no info"
    responses := fun u =>
      if u = search_url "juice" then
        [{ url := search_url "juice", status := 307, headers := [] }]
      else [] }

/-- The 3xx response without a `location` header observed for the "juice"
search in `envNoLoc`. -/
def respNoLoc : HttpResponse :=
  { url := search_url "juice", status := 307, headers := [] }

example : get_names_and_fetch envW "https://shop/list" ["Beta"] =
    Except.ok [mkProductDetails pA dFields, mkProductDetails pC dFields] := by rfl
example : get_names_and_fetch envC1 "u" [] =
    Except.error "TypeError: NoneType object is not iterable" := by rfl
example : search_and_scrape envR "disposable" ["Known"] = Except.ok [knownDetails] := by rfl
example : search_and_scrape envNoLoc "juice" [] = Except.ok [] := by rfl

/-! ### Structural lemmas about the embedded functions -/

/-- If `get_product_names` succeeds with a product list, the listing query
succeeded and the list is its first-five truncation. -/
theorem get_product_names_ok_some (env : Env) (url : String) (tr : List ProductBase)
    (h : get_product_names env url = Except.ok (some tr)) :
    ∃ ps, env.listingQuery url = Except.ok ps ∧ tr = ps.take 5 := by
  unfold get_product_names at h
  cases hg : env.goto url with
  | error e => simp only [hg] at h; exact Except.noConfusion h
  | ok u =>
    cases u
    simp only [hg] at h
    cases hw : env.wheel url listingScrollDistance with
    | error e => simp only [hw] at h; exact Except.noConfusion h
    | ok u =>
      cases u
      simp only [hw] at h
      cases hq : env.listingQuery url with
      | error e =>
        simp only [hq] at h
        injection h with h
        exact Option.noConfusion h
      | ok ps =>
        simp only [hq] at h
        injection h with h
        injection h with h
        exact ⟨ps, rfl, h.symm⟩

/-- Success characterization of `get_names_and_fetch`: when browser launch,
navigation, scrolling and the listing query all succeed, the result is the
fan-out over the de-duplicated first-five products. -/
theorem get_names_and_fetch_ok (env : Env) (url : String)
    (existing : List String) (ps : List ProductBase)
    (hl : env.launch = Except.ok ())
    (hg : env.goto url = Except.ok ())
    (hw : env.wheel url listingScrollDistance = Except.ok ())
    (hq : env.listingQuery url = Except.ok ps) :
    get_names_and_fetch env url existing =
      Except.ok (((ps.take 5).filter (fun p => decide (p.name ∉ existing))).filterMap
        (fetch_product env)) := by
  unfold get_names_and_fetch get_product_names
  simp only [hl, hg, hw, hq]
  rw [List.filterMap_map]
  rfl

/-- Inversion for `get_names_and_fetch`: any successful run came from a
successful listing query, and the result is the fan-out over the
de-duplicated first-five products, in listing order. -/
theorem get_names_and_fetch_ok_inv (env : Env) (url : String)
    (existing : List String) (l : List ProductDetails)
    (h : get_names_and_fetch env url existing = Except.ok l) :
    ∃ ps, env.listingQuery url = Except.ok ps ∧
      l = ((ps.take 5).filter (fun p => decide (p.name ∉ existing))).filterMap
            (fetch_product env) := by
  unfold get_names_and_fetch at h
  cases hl : env.launch with
  | error e => simp only [hl] at h; exact Except.noConfusion h
  | ok u =>
    cases u
    simp only [hl] at h
    cases hpn : get_product_names env url with
    | error e => simp only [hpn] at h; exact Except.noConfusion h
    | ok o =>
      cases o with
      | none => simp only [hpn] at h; exact Except.noConfusion h
      | some tr =>
        simp only [hpn] at h
        obtain ⟨ps, hq, htr⟩ := get_product_names_ok_some env url tr hpn
        injection h with h
        refine ⟨ps, hq, ?_⟩
        rw [← h, htr, List.filterMap_map]
        rfl

/-- A successful per-product fetch in the fan-out keeps the listing
product's identity unchanged and presupposes a successful detail query on
the product's link. -/
theorem fetch_product_some (env : Env) (p : ProductBase) (d : ProductDetails)
    (h : fetch_product env p = some d) :
    d.toProductBase = p ∧
      ∃ fields, env.detailQuery p.link = Except.ok fields ∧
        d = mkProductDetails p fields := by
  unfold fetch_product fetch_product_details detail_try_body at h
  cases hg : env.goto p.link with
  | error e => simp only [hg] at h; exact Option.noConfusion h
  | ok u =>
    cases u
    simp only [hg] at h
    cases hw : env.wheel p.link detailScrollDistance with
    | error e => simp only [hw] at h; exact Option.noConfusion h
    | ok u =>
      cases u
      simp only [hw] at h
      cases hd : env.detailQuery p.link with
      | error e => simp only [hd] at h; exact Option.noConfusion h
      | ok fields =>
        simp only [hd] at h
        injection h with h
        subst h
        exact ⟨rfl, fields, rfl, rfl⟩

/-- The names of the successfully fetched details form a subsequence of the
names of the products fed into the fan-out. -/
theorem names_filterMap_sublist (env : Env) (l : List ProductBase) :
    List.Sublist ((l.filterMap (fetch_product env)).map (fun d => d.toProductBase.name))
      (l.map ProductBase.name) := by
  induction l with
  | nil => simp
  | cons p rest ih =>
    cases hp : fetch_product env p with
    | none =>
      rw [List.filterMap_cons_none hp, List.map_cons]
      exact ih.cons p.name
    | some d =>
      have hbase := (fetch_product_some env p d hp).1
      rw [List.filterMap_cons_some hp, List.map_cons, List.map_cons, hbase]
      exact ih.cons₂ p.name

/-! ### Claim theorems -/

/-- **C1** (code bug evidence).  The claim says a failed listing query makes
`get_names_and_fetch` return normally with an empty list.  In the code,
`get_product_names` catches the query failure and returns the sentinel
`None`, but line 103 then iterates over that `None`, raising a `TypeError`
that escapes `get_names_and_fetch` and surfaces at the `/scrape` endpoint as
an HTTP 500. -/
theorem C1_listing_query_failure_escapes_as_typeerror :
    get_names_and_fetch envC1 "https://shop/list" [] =
      Except.error "TypeError: NoneType object is not iterable" ∧
    scrape_endpoint envC1 "https://shop/list" [] =
      EndpointResult.serverError 500 "TypeError: NoneType object is not iterable" :=
  ⟨rfl, rfl⟩

/-- **C2** (counterexample).  In the redirect branch of `search_and_scrape`
the caller-supplied known-names list is never consulted: with the name
"Known" in `existing_product_names`, the request for "disposable" (which
redirects to the detail page of the product named "Known") still returns
that product. -/
theorem C2_redirect_branch_returns_known_name :
    search_and_scrape envR "disposable" ["Known"] = Except.ok [knownDetails] ∧
    knownDetails.toProductBase.name ∈ ["Known"] :=
  ⟨rfl, by decide⟩

/-- **C2** (amended).  In the listing fan-out flow (`get_names_and_fetch`,
hence the `/scrape` endpoint and the no-redirect branch of
`/search-and-scrape`), no returned product's name is in the caller-supplied
`existing_product_names`; the redirect branch performs no such filtering. -/
theorem C2_listing_flow_filters_known_names (env : Env) (url : String)
    (existing : List String) (l : List ProductDetails)
    (h : get_names_and_fetch env url existing = Except.ok l) :
    ∀ d ∈ l, d.toProductBase.name ∉ existing := by
  obtain ⟨ps, hq, rfl⟩ := get_names_and_fetch_ok_inv env url existing l h
  intro d hd
  rw [List.mem_filterMap] at hd
  obtain ⟨p, hp, hfd⟩ := hd
  rw [List.mem_filter] at hp
  rw [(fetch_product_some env p d hfd).1]
  simpa using hp.2

/-- Witness for the amended C2 at a concrete environment: the listing shows
Alpha, Beta, Gamma; Beta is already known and indeed no returned product is
named Beta. -/
theorem C2_listing_flow_filters_known_names_witness :
    get_names_and_fetch envW "https://shop/list" ["Beta"] =
      Except.ok [mkProductDetails pA dFields, mkProductDetails pC dFields] ∧
    ∀ d ∈ [mkProductDetails pA dFields, mkProductDetails pC dFields],
      d.toProductBase.name ∉ ["Beta"] :=
  ⟨rfl, C2_listing_flow_filters_known_names envW "https://shop/list" ["Beta"]
    [mkProductDetails pA dFields, mkProductDetails pC dFields] rfl⟩

/-- **C3**.  When the listing query succeeds with products `ps`, any
successful run of `get_names_and_fetch` returns at most 5 products and at
most as many as there are listed products whose names are not already
known. -/
theorem C3_result_length_bounds (env : Env) (url : String)
    (existing : List String) (ps : List ProductBase) (l : List ProductDetails)
    (hq : env.listingQuery url = Except.ok ps)
    (h : get_names_and_fetch env url existing = Except.ok l) :
    l.length ≤ 5 ∧
      l.length ≤ (ps.filter (fun p => decide (p.name ∉ existing))).length := by
  obtain ⟨ps2, hq2, rfl⟩ := get_names_and_fetch_ok_inv env url existing l h
  rw [hq] at hq2
  injection hq2 with hq2
  subst hq2
  constructor
  · calc (((ps.take 5).filter (fun p => decide (p.name ∉ existing))).filterMap
          (fetch_product env)).length
        ≤ ((ps.take 5).filter (fun p => decide (p.name ∉ existing))).length :=
          List.length_filterMap_le _ _
      _ ≤ (ps.take 5).length := List.length_filter_le _ _
      _ ≤ 5 := List.length_take_le 5 ps
  · calc (((ps.take 5).filter (fun p => decide (p.name ∉ existing))).filterMap
          (fetch_product env)).length
        ≤ ((ps.take 5).filter (fun p => decide (p.name ∉ existing))).length :=
          List.length_filterMap_le _ _
      _ ≤ (ps.filter (fun p => decide (p.name ∉ existing))).length :=
          ((List.take_sublist 5 ps).filter _).length_le

/-- Witness for C3 at a concrete environment: 3 listed products, one already
known, one detail fetch failing — 1 ≤ 5 and 1 ≤ 2. -/
theorem C3_result_length_bounds_witness :
    envW.listingQuery "https://shop/list" = Except.ok [pA, pB, pC] ∧
    get_names_and_fetch envW "https://shop/list" ["Gamma"] =
      Except.ok [mkProductDetails pA dFields] ∧
    ([mkProductDetails pA dFields] : List ProductDetails).length ≤ 5 ∧
    ([mkProductDetails pA dFields] : List ProductDetails).length ≤
      (([pA, pB, pC].filter (fun p => decide (p.name ∉ ["Gamma"])))).length :=
  ⟨rfl, rfl,
    C3_result_length_bounds envW "https://shop/list" ["Gamma"] [pA, pB, pC]
      [mkProductDetails pA dFields] rfl rfl⟩

/-- **C4**.  If the detail query fails on a product's page (while the
listing pipeline itself succeeds), `get_names_and_fetch` still returns
normally and no product with that page link appears in the result: the
per-product failure is converted into an omission. -/
theorem C4_detail_query_failure_omits_product (env : Env) (url : String)
    (existing : List String) (ps : List ProductBase) (p : ProductBase) (msg : String)
    (hl : env.launch = Except.ok ())
    (hg : env.goto url = Except.ok ())
    (hw : env.wheel url listingScrollDistance = Except.ok ())
    (hq : env.listingQuery url = Except.ok ps)
    (hd : env.detailQuery p.link = Except.error msg) :
    (∃ l, get_names_and_fetch env url existing = Except.ok l) ∧
      ∀ l, get_names_and_fetch env url existing = Except.ok l →
        ∀ d ∈ l, d.toProductBase.link ≠ p.link := by
  refine ⟨⟨_, get_names_and_fetch_ok env url existing ps hl hg hw hq⟩, ?_⟩
  intro l h d hdl heq
  obtain ⟨ps2, hq2, rfl⟩ := get_names_and_fetch_ok_inv env url existing l h
  rw [List.mem_filterMap] at hdl
  obtain ⟨q, hqmem, hfd⟩ := hdl
  obtain ⟨hbase, fields, hdq, _⟩ := fetch_product_some env q d hfd
  rw [hbase] at heq
  rw [heq, hd] at hdq
  exact Except.noConfusion hdq

/-- Witness for C4 at a concrete environment: the detail query on Beta's
page fails; the run succeeds and returns no product with Beta's link. -/
theorem C4_detail_query_failure_omits_product_witness :
    envW.launch = Except.ok () ∧
    envW.goto "https://shop/list" = Except.ok () ∧
    envW.wheel "https://shop/list" listingScrollDistance = Except.ok () ∧
    envW.listingQuery "https://shop/list" = Except.ok [pA, pB, pC] ∧
    envW.detailQuery pB.link = Except.error "query failed" ∧
    ((∃ l, get_names_and_fetch envW "https://shop/list" [] = Except.ok l) ∧
      ∀ l, get_names_and_fetch envW "https://shop/list" [] = Except.ok l →
        ∀ d ∈ l, d.toProductBase.link ≠ pB.link) :=
  ⟨rfl, rfl, rfl, rfl, rfl,
    C4_detail_query_failure_omits_product envW "https://shop/list" [] [pA, pB, pC]
      pB "query failed" rfl rfl rfl rfl rfl⟩

/-- **C5** (counterexample).  The claim says *any* failure in
`fetch_product_details` — including navigation and scrolling — is caught and
converted into `None`.  But `page.goto` and `page.mouse.wheel` (lines 29-31)
sit outside the `try:` block: a navigation failure propagates out of
`fetch_product_details` as an exception instead of yielding `None`. -/
theorem C5_navigation_failure_propagates :
    fetch_product_details envNav "https://shop/p" none =
      Except.error "navigation failed" := rfl

/-- **C5** (amended).  A failure inside the `try:` block of
`fetch_product_details` (the detail query, the identity query, or record
construction) is logged with the product's name (or "Unknown" when no base
product was supplied) and yields `None`; failures during page creation,
navigation or scrolling are not caught and propagate to the caller. -/
theorem C5_query_failure_logged_and_returns_none (env : Env) (url : String)
    (product : Option ProductBase) (msg : String)
    (hg : env.goto url = Except.ok ())
    (hw : env.wheel url detailScrollDistance = Except.ok ())
    (hd : env.detailQuery url = Except.error msg) :
    fetch_product_details env url product =
      Except.ok
        { result := none,
          log := ["Error fetching details for product " ++ logged_product_name product
                    ++ ": " ++ msg] } := by
  unfold fetch_product_details detail_try_body
  simp only [hg, hw, hd]

/-- Witness for the amended C5: in `envW`, the detail query on Beta's page
fails; the call returns `None` with the failure logged under Beta's name. -/
theorem C5_query_failure_logged_and_returns_none_witness :
    envW.goto "https://shop/b" = Except.ok () ∧
    envW.wheel "https://shop/b" detailScrollDistance = Except.ok () ∧
    envW.detailQuery "https://shop/b" = Except.error "query failed" ∧
    fetch_product_details envW "https://shop/b" (some pB) =
      Except.ok
        { result := none,
          log := ["Error fetching details for product " ++ logged_product_name (some pB)
                    ++ ": " ++ "query failed"] } :=
  ⟨rfl, rfl, rfl,
    C5_query_failure_logged_and_returns_none envW "https://shop/b" (some pB)
      "query failed" rfl rfl rfl⟩

/-- **C6**.  Whenever navigating to the search URL produced a response for
that exact URL with a 3xx status (the folded redirect flag is set), a
successful `search_and_scrape` returns at most one product, and any returned
product was extracted by `fetch_product_details` from the `final_url`
computed by the response handler. -/
theorem C6_redirect_result_at_most_one (env : Env) (kw : String)
    (existing : List String) (l : List ProductDetails)
    (hred : ((env.responses (search_url kw)).foldl (handle_response (search_url kw))
        (false, search_url kw)).1 = true)
    (h : search_and_scrape env kw existing = Except.ok l) :
    l.length ≤ 1 ∧
      ∀ d ∈ l, ∃ r,
        fetch_product_details env
          ((env.responses (search_url kw)).foldl (handle_response (search_url kw))
            (false, search_url kw)).2 none = Except.ok r ∧ r.result = some d := by
  unfold search_and_scrape at h
  cases hl : env.launch with
  | error e => simp only [hl] at h; exact Except.noConfusion h
  | ok u =>
    cases u
    simp only [hl] at h
    cases hg : env.goto (search_url kw) with
    | error e => simp only [hg] at h; exact Except.noConfusion h
    | ok u =>
      cases u
      simp only [hg, hred, Bool.true_eq_false, if_false] at h
      cases hf : fetch_product_details env
          ((env.responses (search_url kw)).foldl (handle_response (search_url kw))
            (false, search_url kw)).2 none with
      | error e => simp only [hf] at h; exact Except.noConfusion h
      | ok r =>
        simp only [hf] at h
        cases hr : r.result with
        | some details =>
          simp only [hr] at h
          injection h with h
          subst h
          refine ⟨by simp, ?_⟩
          intro d hd
          rw [List.mem_singleton] at hd
          subst hd
          exact ⟨r, rfl, hr⟩
        | none =>
          simp only [hr] at h
          injection h with h
          subst h
          exact ⟨by simp, by simp⟩

/-- Witness for C6: the "disposable" search in `envR` redirects to the page
of `pKnown` and the request returns exactly that one product. -/
theorem C6_redirect_result_at_most_one_witness :
    ((envR.responses (search_url "disposable")).foldl
        (handle_response (search_url "disposable"))
        (false, search_url "disposable")).1 = true ∧
    search_and_scrape envR "disposable" [] = Except.ok [knownDetails] ∧
    (([knownDetails] : List ProductDetails).length ≤ 1 ∧
      ∀ d ∈ ([knownDetails] : List ProductDetails), ∃ r,
        fetch_product_details envR
          ((envR.responses (search_url "disposable")).foldl
            (handle_response (search_url "disposable"))
            (false, search_url "disposable")).2 none = Except.ok r ∧
          r.result = some d) :=
  ⟨rfl, rfl, C6_redirect_result_at_most_one envR "disposable" [] [knownDetails] rfl rfl⟩

/-- **C7**.  When no response for the exact search URL had a 3xx status (the
folded redirect flag stays clear), `search_and_scrape` returns exactly what
the listing fan-out flow `get_names_and_fetch` returns on the search URL
with the same known-names list. -/
theorem C7_no_redirect_equals_listing_flow (env : Env) (kw : String)
    (existing : List String)
    (hl : env.launch = Except.ok ())
    (hg : env.goto (search_url kw) = Except.ok ())
    (hnored : ((env.responses (search_url kw)).foldl (handle_response (search_url kw))
        (false, search_url kw)).1 = false) :
    search_and_scrape env kw existing =
      get_names_and_fetch env (search_url kw) existing := by
  unfold search_and_scrape
  simp only [hl, hg]
  rw [if_pos hnored]

/-- Witness for C7: in `envW` no response is observed at all, so the
"atomizer" search runs the listing flow on the search URL (both sides here
raise the same `TypeError`, see C1). -/
theorem C7_no_redirect_equals_listing_flow_witness :
    envW.launch = Except.ok () ∧
    envW.goto (search_url "atomizer") = Except.ok () ∧
    ((envW.responses (search_url "atomizer")).foldl
        (handle_response (search_url "atomizer"))
        (false, search_url "atomizer")).1 = false ∧
    search_and_scrape envW "atomizer" [] =
      get_names_and_fetch envW (search_url "atomizer") [] :=
  ⟨rfl, rfl, rfl, C7_no_redirect_equals_listing_flow envW "atomizer" [] rfl rfl rfl⟩

/-- **C8** (counterexample).  The claim says detail extraction scrolls
strictly further than listing extraction; in the code the detail page is
scrolled 3000 pixels (line 31) and the listing page 4000 pixels (line 76). -/
theorem C8_detail_scroll_not_greater :
    ¬ detailScrollDistance > listingScrollDistance := by decide

/-- **C8** (amended).  The fixed detail-page scroll distance is strictly
*less* than the fixed listing-page scroll distance (3000 < 4000). -/
theorem C8_detail_scroll_less_than_listing :
    detailScrollDistance < listingScrollDistance := by decide

/-- **C9**.  A successful `get_names_and_fetch` returns exactly the
successful detail fetches of the de-duplicated first-five listing products,
in listing order; in particular the returned names form a subsequence of the
listing-query names. -/
theorem C9_order_preserved (env : Env) (url : String) (existing : List String)
    (ps : List ProductBase) (l : List ProductDetails)
    (hq : env.listingQuery url = Except.ok ps)
    (h : get_names_and_fetch env url existing = Except.ok l) :
    l = ((ps.take 5).filter (fun p => decide (p.name ∉ existing))).filterMap
          (fetch_product env) ∧
      List.Sublist (l.map (fun d => d.toProductBase.name)) (ps.map ProductBase.name) := by
  obtain ⟨ps2, hq2, rfl⟩ := get_names_and_fetch_ok_inv env url existing l h
  rw [hq] at hq2
  injection hq2 with hq2
  subst hq2
  refine ⟨rfl, ?_⟩
  refine (names_filterMap_sublist env _).trans ?_
  exact ((List.filter_sublist (ps.take 5)).trans (List.take_sublist 5 ps)).map
    ProductBase.name

/-- Witness for C9: in `envW` with Beta already known, the result is
`[Alpha, Gamma]`-details, matching the characterization, and
`[Alpha, Gamma]` is a subsequence of the listing names. -/
theorem C9_order_preserved_witness :
    envW.listingQuery "https://shop/list" = Except.ok [pA, pB, pC] ∧
    get_names_and_fetch envW "https://shop/list" ["Beta"] =
      Except.ok [mkProductDetails pA dFields, mkProductDetails pC dFields] ∧
    ([mkProductDetails pA dFields, mkProductDetails pC dFields] =
        (([pA, pB, pC].take 5).filter
          (fun p => decide (p.name ∉ ["Beta"]))).filterMap (fetch_product envW) ∧
      List.Sublist
        ([mkProductDetails pA dFields, mkProductDetails pC dFields].map
          (fun d => d.toProductBase.name))
        ([pA, pB, pC].map ProductBase.name)) :=
  ⟨rfl, rfl,
    C9_order_preserved envW "https://shop/list" ["Beta"] [pA, pB, pC]
      [mkProductDetails pA dFields, mkProductDetails pC dFields] rfl rfl⟩

/-- **C10**.  A 3xx response for the exact search URL carrying no `location`
header still sets the redirect flag, and `final_url` falls back to the
search URL itself: the redirect branch then attempts detail extraction on
the search URL. -/
theorem C10_redirect_without_location_uses_search_url (env : Env) (kw : String)
    (existing : List String) (resp : HttpResponse)
    (hl : env.launch = Except.ok ())
    (hg : env.goto (search_url kw) = Except.ok ())
    (hresp : env.responses (search_url kw) = [resp])
    (hurl : resp.url = search_url kw)
    (hs1 : 300 ≤ resp.status) (hs2 : resp.status < 400)
    (hloc : header_get resp.headers "location" = none) :
    ((env.responses (search_url kw)).foldl (handle_response (search_url kw))
        (false, search_url kw)) = (true, search_url kw) ∧
      search_and_scrape env kw existing =
        (match fetch_product_details env (search_url kw) none with
         | Except.error e => Except.error e
         | Except.ok r =>
           match r.result with
           | some details => Except.ok [details]
           | none => Except.ok []) := by
  have hfold : ((env.responses (search_url kw)).foldl (handle_response (search_url kw))
      (false, search_url kw)) = (true, search_url kw) := by
    rw [hresp]
    simp [handle_response, hurl, hs1, hs2, hloc]
  refine ⟨hfold, ?_⟩
  unfold search_and_scrape
  simp only [hl, hg, hfold, Bool.true_eq_false, if_false]

/-- Witness for C10: in `envNoLoc` the "juice" search gets a 307 response
with no `location` header; the redirect branch runs on the search URL itself
(and, every detail query failing, returns the empty list). -/
theorem C10_redirect_without_location_uses_search_url_witness :
    envNoLoc.launch = Except.ok () ∧
    envNoLoc.goto (search_url "juice") = Except.ok () ∧
    envNoLoc.responses (search_url "juice") = [respNoLoc] ∧
    respNoLoc.url = search_url "juice" ∧
    300 ≤ respNoLoc.status ∧
    respNoLoc.status < 400 ∧
    header_get respNoLoc.headers "location" = none ∧
    (((envNoLoc.responses (search_url "juice")).foldl
        (handle_response (search_url "juice")) (false, search_url "juice")) =
        (true, search_url "juice") ∧
      search_and_scrape envNoLoc "juice" [] =
        (match fetch_product_details envNoLoc (search_url "juice") none with
         | Except.error e => Except.error e
         | Except.ok r =>
           match r.result with
           | some details => Except.ok [details]
           | none => Except.ok [])) :=
  ⟨rfl, rfl, rfl, rfl, by decide, by decide, rfl,
    C10_redirect_without_location_uses_search_url envNoLoc "juice" [] respNoLoc
      rfl rfl rfl rfl (by decide) (by decide) rfl⟩
